import Mathlib

/-!
Shallow embedding of the uplink configuration manager
(`api/code/uplink.go`): record types, field validators, the
replace-or-append merge of `insertWpaConfigAndSave` /
`insertPPPConfigAndSave`, the daemon-artifact renderers
(`writeWPAs`, `writePPP`, including the Go `text/template`
execution semantics they rely on), and the two HTTP handlers
`updateWpaSupplicantConfig` / `updatePPPConfig` as pure functions
of the decoded request plus the results of the external
collaborators (interface registry, plugin lifecycle manager).
File writes are modelled as a pure list of (path, content) pairs.
-/

namespace Uplink

/-- Modelled from the spec: the interface registry record
`InterfaceRecord` with fields Name, Type, Subtype, Enabled (spec section 6);
the Go struct `InterfaceConfig` is declared outside the analyzed file.
`Type'` stands for the Go field `Type` (a Lean keyword). -/
structure InterfaceConfig where
  Name : String
  Type' : String
  Subtype : String
  Enabled : Bool
  deriving Repr, DecidableEq

/-- Go struct `WPANetwork` (uplink.go). -/
structure WPANetwork where
  Disabled : Bool
  Password : String
  SSID : String
  KeyMgmt : String
  Priority : String
  BSSID : String
  deriving Repr, DecidableEq

/-- Go struct `WPAIface` (uplink.go). -/
structure WPAIface where
  Iface : String
  Enabled : Bool
  Networks : List WPANetwork
  deriving Repr, DecidableEq

/-- Go struct `WPASupplicantConfig` (uplink.go). -/
structure WPASupplicantConfig where
  WPAs : List WPAIface
  deriving Repr, DecidableEq

/-- Go struct `PPPIface` (uplink.go). Note: the struct has no `BSSID`
field; the provider template nevertheless references one. -/
structure PPPIface where
  Iface : String
  Enabled : Bool
  Username : String
  Secret : String
  VLAN : String
  MTU : String
  deriving Repr, DecidableEq

/-- Go struct `PPPConfig` (uplink.go). -/
structure PPPConfig where
  PPPs : List PPPIface
  deriving Repr, DecidableEq

/-- Embedding of Go `strings.Contains(s, "\n")` and of the other
single-character containment tests: the character occurs in the
string. -/
def containsChar (s : String) (c : Char) : Bool :=
  s.data.any (fun x => x = c)

/-- Splitting a character list at every occurrence of `sep`, keeping
empty segments, as Go `strings.Split` does for a one-character
separator. -/
def splitOnChar (sep : Char) : List Char → List (List Char)
  | [] => [[]]
  | c :: rest =>
    let r := splitOnChar sep rest
    if c = sep then [] :: r
    else
      match r with
      | [] => [[c]]
      | h :: t => (c :: h) :: t

/-- Embedding of Go `strings.Split(s, sep)` for a one-character
separator: every occurrence of the separator splits, empty segments are
kept, and the empty string yields the one-element list `[""]`. -/
def goSplit (s : String) (sep : Char) : List String :=
  (splitOnChar sep s.data).map (fun l => String.mk l)

/-- Embedding of Go `strconv.Atoi` on the inputs this subsystem feeds it:
an optional sign followed by at least one ASCII digit parses, anything
else errors (`none`). Atoi's int64 range error is not modelled; no field
validated here carries 19-digit numbers in any claim. -/
def atoi? (s : String) : Option Int :=
  let digitsVal : List Char → Int := fun l =>
    Int.ofNat (l.foldl (fun a c => a * 10 + (c.toNat - 48)) 0)
  let core : List Char → Int → Option Int := fun l sign =>
    if l ≠ [] ∧ l.all Char.isDigit then some (sign * digitsVal l) else none
  match s.data with
  | [] => none
  | c :: rest =>
    if c = '+' then core rest 1
    else if c = '-' then core rest (-1)
    else core (c :: rest) 1

/-- One character of the `[0-9A-Fa-f]` class of the BSSID regexp. -/
def isHexDigitChar (c : Char) : Bool :=
  c.isDigit || ('A' ≤ c && c ≤ 'F') || ('a' ≤ c && c ≤ 'f')

/-- One character of the `[:-]` class of the BSSID regexp. -/
def isMacSep (c : Char) : Bool :=
  c = ':' || c = '-'

/-- Embedding of the anchored regexp
`^([0-9A-Fa-f]\x7b2\x7d[:-])\x7b5\x7d([0-9A-Fa-f]\x7b2\x7d)$`
used for `BSSID` in `WPANetwork.Validate`: exactly six pairs of hex
digits joined by five separators, each independently `:` or `-`. -/
def macMatch (s : String) : Bool :=
  match s.data with
  | [a1, a2, s1, b1, b2, s2, c1, c2, s3, d1, d2, s4, e1, e2, s5, f1, f2] =>
    isHexDigitChar a1 && isHexDigitChar a2 && isMacSep s1 &&
    isHexDigitChar b1 && isHexDigitChar b2 && isMacSep s2 &&
    isHexDigitChar c1 && isHexDigitChar c2 && isMacSep s3 &&
    isHexDigitChar d1 && isHexDigitChar d2 && isMacSep s4 &&
    isHexDigitChar e1 && isHexDigitChar e2 && isMacSep s5 &&
    isHexDigitChar f1 && isHexDigitChar f2
  | _ => false

/-- The membership test of the `KeyMgmt` token loop in
`WPANetwork.Validate`. -/
def keyMgmtTokenOk (part : String) : Bool :=
  part = "WPA-PSK" || part = "WPA-PSK-SHA256" || part = "SAE"

/-- Embedding of `(n *WPANetwork) Validate` (uplink.go): newline checks on
Password and SSID, numeric check on a non-empty Priority, MAC check on a
non-empty BSSID, then the KeyMgmt emptiness and token checks. Go's
`strings.Split(s, " ")` is `goSplit s ' '`; the loop errors at the
first token outside the allowed set, hence `List.find?`. -/
def WPANetwork.Validate (n : WPANetwork) : Except String Unit :=
  if containsChar n.Password '\n' then
    .error "Password field contains newline characters"
  else if containsChar n.SSID '\n' then
    .error "SSID field contains newline characters"
  else if n.Priority ≠ "" ∧ atoi? n.Priority = none then
    .error "Priority field must contain numeric value"
  else if n.BSSID ≠ "" ∧ macMatch n.BSSID = false then
    .error "BSSID field must be a valid MAC address"
  else if n.KeyMgmt = "" then
    .error "KeyMgmt field must be set (WPA-PSK WPA-PSK-SHA256 or WPA-PSK WPA-PSK-SHA256 SAE)"
  else
    match (goSplit n.KeyMgmt ' ').find? (fun part => !(keyMgmtTokenOk part)) with
    | some part => .error ("KeyMgmt field has invalid field " ++ part)
    | none => .ok ()

/-- The `v < 0 || err != nil` test applied to `MTU` in
`PPPIface.Validate`. -/
def mtuBad (s : String) : Bool :=
  match atoi? s with
  | none => true
  | some v => v < 0

/-- Embedding of `(p *PPPIface) Validate` (uplink.go): Iface and Username
non-empty, no newline in Username or Secret, numeric VLAN when non-empty,
non-negative numeric MTU when non-empty. Iface has no newline check. -/
def PPPIface.Validate (p : PPPIface) : Except String Unit :=
  if p.Iface = "" then .error "Iface field empty"
  else if p.Username = "" then .error "Username field empty"
  else if containsChar p.Username '\n' then
    .error "Username field contains newline characters"
  else if containsChar p.Secret '\n' then
    .error "Secret field contains newline characters"
  else if p.VLAN ≠ "" ∧ atoi? p.VLAN = none then
    .error "VLAN field must contain numeric value"
  else if p.MTU ≠ "" ∧ mtuBad p.MTU = true then
    .error "MTU field must contain numeric positive value"
  else .ok ()

/-- Embedding of `isWifiUplinkIfaceEnabled` (uplink.go): first interface
with the given name decides; a name match with the wrong type or subtype
breaks out and yields false, as does no match. -/
def isWifiUplinkIfaceEnabled (Name : String) (interfaces : List InterfaceConfig) : Bool :=
  match interfaces.find? (fun iface => iface.Name = Name) with
  | some iface => iface.Type' = "Uplink" && iface.Subtype = "wifi" && iface.Enabled
  | none => false

/-- Embedding of `isPPPUplinkIfaceEnabled` (uplink.go). -/
def isPPPUplinkIfaceEnabled (Name : String) (interfaces : List InterfaceConfig) : Bool :=
  match interfaces.find? (fun iface => iface.Name = Name) with
  | some iface => iface.Type' = "Uplink" && iface.Subtype = "ppp" && iface.Enabled
  | none => false

/-- The per-record `Enabled` refresh applied by the merge scan of
`insertWpaConfigAndSave` to records before the match point. -/
def refreshWpa (interfaces : List InterfaceConfig) (wpa : WPAIface) : WPAIface :=
  { wpa with Enabled := isWifiUplinkIfaceEnabled wpa.Iface interfaces }

/-- The scanning loop of `insertWpaConfigAndSave`: on the first record
whose `Iface` equals the new record's, append the new record and `break`
(records after the match are neither refreshed nor kept); otherwise
refresh `Enabled` from the interface list and keep the record. Returns
the accumulated list and the `found` flag. -/
def wpaScan (interfaces : List InterfaceConfig) (new_wpa : WPAIface) :
    List WPAIface → List WPAIface × Bool
  | [] => ([], false)
  | wpa :: rest =>
    if wpa.Iface = new_wpa.Iface then ([new_wpa], true)
    else
      let t := wpaScan interfaces new_wpa rest
      (refreshWpa interfaces wpa :: t.1, t.2)

/-- Collection-level embedding of `insertWpaConfigAndSave` (uplink.go):
scan-and-replace, then append when not found and the new `Iface` is
non-empty. The JSON save and the artifact regeneration that follow in Go
are modelled separately (`writeWPAs`). -/
def insertWpaConfig (interfaces : List InterfaceConfig) (config : List WPAIface)
    (new_wpa : WPAIface) : List WPAIface :=
  let t := wpaScan interfaces new_wpa config
  if t.2 = false ∧ new_wpa.Iface ≠ "" then t.1 ++ [new_wpa] else t.1

/-- The per-record `Enabled` refresh of `insertPPPConfigAndSave`. -/
def refreshPPP (interfaces : List InterfaceConfig) (ppp : PPPIface) : PPPIface :=
  { ppp with Enabled := isPPPUplinkIfaceEnabled ppp.Iface interfaces }

/-- The scanning loop of `insertPPPConfigAndSave`, same shape as
`wpaScan`. -/
def pppScan (interfaces : List InterfaceConfig) (new_ppp : PPPIface) :
    List PPPIface → List PPPIface × Bool
  | [] => ([], false)
  | ppp :: rest =>
    if ppp.Iface = new_ppp.Iface then ([new_ppp], true)
    else
      let t := pppScan interfaces new_ppp rest
      (refreshPPP interfaces ppp :: t.1, t.2)

/-- Collection-level embedding of `insertPPPConfigAndSave` (uplink.go). -/
def insertPPPConfig (interfaces : List InterfaceConfig) (config : List PPPIface)
    (new_ppp : PPPIface) : List PPPIface :=
  let t := pppScan interfaces new_ppp config
  if t.2 = false ∧ new_ppp.Iface ≠ "" then t.1 ++ [new_ppp] else t.1

/-- A daemon-facing artifact written by a renderer: target path and full
content. File-system writes themselves are modelled as always
succeeding. -/
structure FileWrite where
  path : String
  content : String
  deriving Repr, DecidableEq

/-! The Go `text/template` fragment the renderers use. The WPA and
chap-secrets templates reference only fields their data actually has, so
their execution can never fail and is embedded directly as string
building. The PPP provider template is embedded as a node list evaluated
under `text/template` semantics, because it references a field (`BSSID`)
that `PPPIface` does not have, and in `text/template` evaluating a
missing struct field is an execution error. -/

/-- A node of the provider template: literal text, a `.Field` action, or
an `if .Field` conditional (a string field is truthy when non-empty).
Looking up a field the struct does not have is an execution error. -/
inductive TmplNode where
  | text (s : String)
  | field (name : String)
  | ifField (name : String) (body : List TmplNode)
  deriving Repr

/-- The string fields of `PPPIface`, as `text/template` field lookup sees
them; any other name (in particular `BSSID`) is not a field of the
struct. -/
def pppField (p : PPPIface) : String → Option String
  | "Iface" => some p.Iface
  | "Username" => some p.Username
  | "Secret" => some p.Secret
  | "VLAN" => some p.VLAN
  | "MTU" => some p.MTU
  | _ => none

/-- The error `text/template` reports for a missing struct field. -/
def fieldErr (name : String) : String :=
  "cannot evaluate field " ++ name ++ " in type PPPIface"

mutual

/-- Execute one template node under a field-lookup environment. -/
def execNode (lookup : String → Option String) : TmplNode → Except String String
  | .text s => .ok s
  | .field name =>
    match lookup name with
    | none => .error (fieldErr name)
    | some v => .ok v
  | .ifField name body =>
    match lookup name with
    | none => .error (fieldErr name)
    | some v => if v ≠ "" then execNodes lookup body else .ok ""

/-- Execute a node list, concatenating output, stopping at the first
error. -/
def execNodes (lookup : String → Option String) : List TmplNode → Except String String
  | [] => .ok ""
  | node :: rest => do
    let a ← execNode lookup node
    let b ← execNodes lookup rest
    .ok (a ++ b)

end

/-- The parsed form of the `provider` template of `writePPP` (uplink.go
lines 405-416), node for node: the fixed directive block, the optional
`mtu` line, the first plugin line with conditional `.VLAN` suffix, the
stray `if .BSSID` conditional (no such field on `PPPIface`), the second,
unconditional plugin line, and the `user` line. -/
def providerTemplate : List TmplNode :=
  [ .text "# Note this is an autogenerated file\n      # Minimalistic default options file for DSL/PPPoE connections\n      noipdefault\n      defaultroute\n      replacedefaultroute\n      persist\n      ",
    .ifField "MTU" [.text "mtu ", .field "MTU"],
    .text "\n      plugin rp-pppoe.so ",
    .field "Iface",
    .ifField "VLAN" [.text ".", .field "VLAN"],
    .text "\n      ",
    .ifField "BSSID" [.text "bssid=", .field "BSSID"],
    .text "\n      plugin rp-pppoe.so ",
    .field "Iface",
    .text ".",
    .field "VLAN",
    .text "\n      user \"",
    .field "Username",
    .text "\"\n      " ]

/-- Rendering of one per-record provider artifact: executing the provider
template against the record's fields. -/
def renderProvider (p : PPPIface) : Except String String :=
  execNodes (pppField p) providerTemplate

/-- The credential line the chap-secrets template emits for one record:
`"Username" * "Secret"`. -/
def chapSecretsLine (p : PPPIface) : String :=
  "\"" ++ p.Username ++ "\" * \"" ++ p.Secret ++ "\""

/-- The `range .PPPs` body of the chap-secrets template (uplink.go lines
377-384), emitted once per stored record with no filtering. Every field
the template references (`Username`, `Secret`) exists on `PPPIface`, so
execution cannot fail and is embedded as direct string building. -/
def chapBody : List PPPIface → String
  | [] => ""
  | p :: rest => "\n      " ++ (chapSecretsLine p ++ ("\n    " ++ chapBody rest))

/-- Rendering of the shared chap-secrets artifact, continued: fixed
header text, then `chapBody` over all stored records, then the trailing
text. -/
def renderChapSecrets (config : PPPConfig) : String :=
  "# Note this is an autogenerated file\n    # Secrets for authentication using CHAP\n    # client        server  secret                  IP addresses\n\n    " ++
  (chapBody config.PPPs ++ "\n    ")

/-- Fixed path of the shared chap-secrets artifact (TEST_PREFIX, declared
outside the analyzed file, taken as empty). -/
def chapSecretsPath : String := "/etc/ppp/chap-secrets"

/-- Path of a record's provider artifact: the record's `Iface` is
concatenated verbatim (uplink.go line 430). -/
def providerPath (p : PPPIface) : String :=
  "/etc/ppp/provider_" ++ p.Iface

/-- The provider loop of `writePPP`: render each stored record's provider
file in order; a render error aborts the remaining artifacts and is
returned (the files already written stay written). -/
def writePPPLoop : List PPPIface → List FileWrite → List FileWrite × Option String
  | [], acc => (acc, none)
  | p :: rest, acc =>
    match renderProvider p with
    | .error e => (acc, some e)
    | .ok content => writePPPLoop rest (acc ++ [⟨providerPath p, content⟩])

/-- Embedding of `writePPP` (uplink.go): write the chap-secrets artifact
(all records, no `Enabled` filter), then one provider artifact per stored
record. Returns the files written and the first error, if any. The
`interfaces` argument is unused, as in the Go body. -/
def writePPP (interfaces : List InterfaceConfig) (config : PPPConfig) :
    List FileWrite × Option String :=
  writePPPLoop config.PPPs [⟨chapSecretsPath, renderChapSecrets config⟩]

/-- The `if not .Disabled` body of the WPA template: one network block
with ssid, psk, optional priority, optional bssid, and key_mgmt. -/
def wpaNetworkBlock (n : WPANetwork) : String :=
  "\n      network=\x7b\n      \tssid=\"" ++ n.SSID ++
  "\"\n      \tpsk=\"" ++ n.Password ++
  "\"\n      \t" ++ (if n.Priority ≠ "" then "priority=" ++ n.Priority else "") ++
  "\n      \t" ++ (if n.BSSID ≠ "" then "bssid=" ++ n.BSSID else "") ++
  "\n        key_mgmt=" ++ n.KeyMgmt ++
  "\n      \x7d\n      "

/-- The `range .Networks` body of the WPA template: literal whitespace
around the conditional block; a disabled network contributes only the
whitespace. -/
def wpaNetworkPart (n : WPANetwork) : String :=
  "\n      " ++ (if n.Disabled then "" else wpaNetworkBlock n) ++ "\n      "

/-- Rendering of one per-interface WPA artifact (uplink.go lines
112-124): header with the interface-specific control-socket directive,
then the range body once per network entry. All referenced fields exist
on `WPANetwork`, so template execution cannot fail. -/
def renderWPAConf (wpa : WPAIface) : String :=
  "# Note this is an autogenerated file\n      ctrl_interface=DIR=/var/run/wpa_supplicant_" ++
  wpa.Iface ++ "\n      " ++
  String.join (wpa.Networks.map wpaNetworkPart)

/-- Embedding of `writeWPAs` (uplink.go): one artifact per stored record
whose `Enabled` is true; records with `Enabled` false are skipped by the
`continue`. The `interfaces` argument is unused, as in the Go body. -/
def writeWPAs (interfaces : List InterfaceConfig) (config : WPASupplicantConfig) :
    List FileWrite :=
  (config.WPAs.filter (fun wpa => wpa.Enabled)).map
    (fun wpa => ⟨"/configs/wifi_uplink/wpa_" ++ wpa.Iface ++ ".conf", renderWPAConf wpa⟩)

/-- Modelled from the spec: a call to the plugin lifecycle manager
(spec section 6), either `EnablePlugin(name)` or `RestartPlugin(name)`;
the functions themselves are declared outside the analyzed file. -/
inductive PluginCall where
  | enable (name : String)
  | restart (name : String)
  deriving Repr, DecidableEq

/-- Embedding of the anchored regexp
`^[a-zA-Z0-9]*(\.[a-zA-Z0-9]*)*$` of `updateWpaSupplicantConfig`: the
string is a dot-separated sequence of (possibly empty) ASCII-alphanumeric
runs, i.e. every dot-separated segment is alphanumeric. Both starred
groups match the empty string, so the whole pattern accepts "". -/
def ifacePatternMatch (s : String) : Bool :=
  (goSplit s '.').all (fun seg => seg.data.all Char.isAlphanum)

/-- The KeyMgmt defaulting in the network loop of
`updateWpaSupplicantConfig`. In Go it is applied to the loop-iteration
copy `network`, never written back to `wpa.Networks`. -/
def defaultKeyMgmt (n : WPANetwork) : WPANetwork :=
  if n.KeyMgmt = "" then { n with KeyMgmt := "WPA-PSK WPA-PSK-SHA256" } else n

/-- The validation part of the network loop of
`updateWpaSupplicantConfig`: each iteration validates the defaulted copy
of the entry and aborts at the first error. The defaulted copy is
discarded after the iteration. -/
def validateNetworks : List WPANetwork → Except String Unit
  | [] => .ok ()
  | n :: rest =>
    match (defaultKeyMgmt n).Validate with
    | .error e => .error e
    | .ok _ => validateNetworks rest

/-- The `enabled` flag computed by the network loop of
`updateWpaSupplicantConfig`: true iff at least one submitted network
entry has `Disabled` false. The record's own `Enabled` field plays no
part. -/
def anyNetworkEnabled (networks : List WPANetwork) : Bool :=
  networks.any (fun n => !n.Disabled)

/-- Outcome of one `updateWpaSupplicantConfig` request: the HTTP error
status if any, whether the registry upsert was reached, the stored WPA
collection after the call, whether the store was rewritten, and the
plugin lifecycle calls issued, in order. -/
structure WpaHandlerOutcome where
  status : Option Nat
  registryCalled : Bool
  storedWPAs : List WPAIface
  wroteStore : Bool
  pluginCalls : List PluginCall
  deriving Repr, DecidableEq

/-- Embedding of `updateWpaSupplicantConfig` (uplink.go) as a pure
function of the decoded request `wpa`, the stored collection, the result
the interface registry returns for `updateInterfaceType` (an external
collaborator), and the boolean `enablePlugin` would return (true for a
fresh start). Body-decode errors and file-system write failures are not
modelled. The sequence follows the source: iface-name pattern check,
network loop (enabled tracking, KeyMgmt defaulting on the loop copy,
validation), registry upsert, merge-and-save, then enable when at least
one network entry is enabled, with restart as the fallback. -/
def updateWpaSupplicantConfig (storedWPAs : List WPAIface)
    (registryResult : Except String (List InterfaceConfig))
    (enablePluginReturns : Bool) (wpa : WPAIface) : WpaHandlerOutcome :=
  if ifacePatternMatch wpa.Iface = false then
    ⟨some 400, false, storedWPAs, false, []⟩
  else
    match validateNetworks wpa.Networks with
    | .error _ => ⟨some 400, false, storedWPAs, false, []⟩
    | .ok _ =>
      match registryResult with
      | .error _ => ⟨some 400, true, storedWPAs, false, []⟩
      | .ok interfaces =>
        let newStored := insertWpaConfig interfaces storedWPAs wpa
        let enabled := anyNetworkEnabled wpa.Networks
        let calls :=
          if enabled then
            if enablePluginReturns then [PluginCall.enable "WIFI-UPLINK"]
            else [PluginCall.enable "WIFI-UPLINK", PluginCall.restart "WIFI-UPLINK"]
          else [PluginCall.restart "WIFI-UPLINK"]
        ⟨none, true, newStored, true, calls⟩

/-- Outcome of one `updatePPPConfig` request, same shape as the WPA
handler outcome plus the daemon artifacts written. -/
structure PppHandlerOutcome where
  status : Option Nat
  registryCalled : Bool
  storedPPPs : List PPPIface
  wroteStore : Bool
  filesWritten : List FileWrite
  pluginCalls : List PluginCall
  deriving Repr, DecidableEq

/-- Embedding of `updatePPPConfig` (uplink.go) as a pure function of the
decoded request `ppp`, the stored collection, the registry result, and
the boolean `enablePlugin` would return. Validation failure aborts before
the registry call; a registry error aborts before the merge; a render
error inside `insertPPPConfigAndSave` surfaces as a 400 after the store
was already rewritten, and no plugin call is made. -/
def updatePPPConfig (storedPPPs : List PPPIface)
    (registryResult : Except String (List InterfaceConfig))
    (enablePluginReturns : Bool) (ppp : PPPIface) : PppHandlerOutcome :=
  match ppp.Validate with
  | .error _ => ⟨some 400, false, storedPPPs, false, [], []⟩
  | .ok _ =>
    match registryResult with
    | .error _ => ⟨some 400, true, storedPPPs, false, [], []⟩
    | .ok interfaces =>
      let merged := insertPPPConfig interfaces storedPPPs ppp
      let rendered := writePPP interfaces ⟨merged⟩
      match rendered.2 with
      | some _ => ⟨some 400, true, merged, true, rendered.1, []⟩
      | none =>
        let calls :=
          if enablePluginReturns then [PluginCall.enable "PPP"]
          else [PluginCall.enable "PPP", PluginCall.restart "PPP"]
        ⟨none, true, merged, true, rendered.1, calls⟩

/-! Helper lemmas about the merge scan. -/

theorem refreshWpa_Iface (il : List InterfaceConfig) (w : WPAIface) :
    (refreshWpa il w).Iface = w.Iface := rfl

theorem refreshWpa_idem (il : List InterfaceConfig) (w : WPAIface) :
    refreshWpa il (refreshWpa il w) = refreshWpa il w := rfl

theorem insertWpaConfig_cons_eq (il : List InterfaceConfig) (w : WPAIface)
    (ws : List WPAIface) (r : WPAIface) (h : w.Iface = r.Iface) :
    insertWpaConfig il (w :: ws) r = [r] := by
  simp [insertWpaConfig, wpaScan, h]

theorem insertWpaConfig_cons_ne (il : List InterfaceConfig) (w : WPAIface)
    (ws : List WPAIface) (r : WPAIface) (h : ¬ w.Iface = r.Iface) :
    insertWpaConfig il (w :: ws) r = refreshWpa il w :: insertWpaConfig il ws r := by
  simp only [insertWpaConfig, wpaScan, if_neg h]
  split_ifs <;> simp_all

theorem insertWpa_idem (il : List InterfaceConfig) (c : List WPAIface) (r : WPAIface) :
    insertWpaConfig il (insertWpaConfig il c r) r = insertWpaConfig il c r := by
  induction c with
  | nil =>
    by_cases h : r.Iface = ""
    · simp [insertWpaConfig, wpaScan, h]
    · have h1 : insertWpaConfig il [] r = [r] := by
        simp [insertWpaConfig, wpaScan, h]
      rw [h1, insertWpaConfig_cons_eq il r [] r rfl]
  | cons w ws ih =>
    by_cases h : w.Iface = r.Iface
    · rw [insertWpaConfig_cons_eq il w ws r h, insertWpaConfig_cons_eq il r [] r rfl]
    · rw [insertWpaConfig_cons_ne il w ws r h,
        insertWpaConfig_cons_ne il (refreshWpa il w) (insertWpaConfig il ws r) r h,
        refreshWpa_idem, ih]

theorem refreshPPP_Iface (il : List InterfaceConfig) (p : PPPIface) :
    (refreshPPP il p).Iface = p.Iface := rfl

theorem refreshPPP_idem (il : List InterfaceConfig) (p : PPPIface) :
    refreshPPP il (refreshPPP il p) = refreshPPP il p := rfl

theorem insertPPPConfig_cons_eq (il : List InterfaceConfig) (p : PPPIface)
    (ps : List PPPIface) (r : PPPIface) (h : p.Iface = r.Iface) :
    insertPPPConfig il (p :: ps) r = [r] := by
  simp [insertPPPConfig, pppScan, h]

theorem insertPPPConfig_cons_ne (il : List InterfaceConfig) (p : PPPIface)
    (ps : List PPPIface) (r : PPPIface) (h : ¬ p.Iface = r.Iface) :
    insertPPPConfig il (p :: ps) r = refreshPPP il p :: insertPPPConfig il ps r := by
  simp only [insertPPPConfig, pppScan, if_neg h]
  split_ifs <;> simp_all

theorem insertPPP_idem (il : List InterfaceConfig) (c : List PPPIface) (r : PPPIface) :
    insertPPPConfig il (insertPPPConfig il c r) r = insertPPPConfig il c r := by
  induction c with
  | nil =>
    by_cases h : r.Iface = ""
    · simp [insertPPPConfig, pppScan, h]
    · have h1 : insertPPPConfig il [] r = [r] := by
        simp [insertPPPConfig, pppScan, h]
      rw [h1, insertPPPConfig_cons_eq il r [] r rfl]
  | cons p ps ih =>
    by_cases h : p.Iface = r.Iface
    · rw [insertPPPConfig_cons_eq il p ps r h, insertPPPConfig_cons_eq il r [] r rfl]
    · rw [insertPPPConfig_cons_ne il p ps r h,
        insertPPPConfig_cons_ne il (refreshPPP il p) (insertPPPConfig il ps r) r h,
        refreshPPP_idem, ih]

/-- C8: merge is idempotent — for every interface list, stored collection
and record, merging the same record twice in sequence via the
replace-or-append merge of `insertWpaConfigAndSave` (respectively
`insertPPPConfigAndSave`) yields the same stored collection as merging it
once. -/
theorem C8_merge_idempotent :
    (∀ (il : List InterfaceConfig) (c : List WPAIface) (r : WPAIface),
      insertWpaConfig il (insertWpaConfig il c r) r = insertWpaConfig il c r) ∧
    (∀ (il : List InterfaceConfig) (c : List PPPIface) (r : PPPIface),
      insertPPPConfig il (insertPPPConfig il c r) r = insertPPPConfig il c r) :=
  ⟨insertWpa_idem, insertPPP_idem⟩

theorem wpaScan_not_found (il : List InterfaceConfig) (new : WPAIface)
    (c : List WPAIface) (h : ∀ w ∈ c, ¬ w.Iface = new.Iface) :
    wpaScan il new c = (c.map (refreshWpa il), false) := by
  induction c with
  | nil => rfl
  | cons w ws ih =>
    have hw : ¬ w.Iface = new.Iface := h w (List.mem_cons_self _ _)
    simp [wpaScan, hw, ih (fun x hx => h x (List.mem_cons_of_mem _ hx))]

/-- Claim C1 (corrected): in a stored WPA collection of the shape
`pre ++ match :: post`, merging a record for the matched interface via
the merge of `insertWpaConfigAndSave` replaces the matched record with
the submitted one and refreshes the cached `Enabled` flags of the
records before the match point — and the records after the match point
(the wlan2 record of the scenario) are dropped from the resulting
collection entirely, not kept with a stale flag: the scan `break`s at
the match and never re-appends the tail. -/
theorem C1_after_match_dropped (il : List InterfaceConfig) (new : WPAIface)
    (pre : List WPAIface) (m : WPAIface) (post : List WPAIface)
    (hm : m.Iface = new.Iface)
    (hpre : ∀ w ∈ pre, ¬ w.Iface = new.Iface) :
    insertWpaConfig il (pre ++ m :: post) new = pre.map (refreshWpa il) ++ [new] := by
  induction pre with
  | nil => simpa using insertWpaConfig_cons_eq il m post new hm
  | cons w ws ih =>
    have hw : ¬ w.Iface = new.Iface := hpre w (List.mem_cons_self _ _)
    rw [List.cons_append, insertWpaConfig_cons_ne il w (ws ++ m :: post) new hw,
      ih (fun x hx => hpre x (List.mem_cons_of_mem _ hx))]
    simp

/-- Claim C1, counterexample to the claim as stated: with records for
`wlan1` then `wlan2` stored in that order (both healthy uplink-wifi
interfaces in the registry snapshot), merging an update for `wlan1`
yields a collection holding only the submitted `wlan1` record; contrary
to the claim, no `wlan2` record remains in the collection at all. -/
theorem C1_counterexample :
    insertWpaConfig
        [⟨"wlan1", "Uplink", "wifi", true⟩, ⟨"wlan2", "Uplink", "wifi", true⟩]
        [⟨"wlan1", true, []⟩, ⟨"wlan2", true, []⟩]
        ⟨"wlan1", false, []⟩ = [⟨"wlan1", false, []⟩] ∧
    ((insertWpaConfig
        [⟨"wlan1", "Uplink", "wifi", true⟩, ⟨"wlan2", "Uplink", "wifi", true⟩]
        [⟨"wlan1", true, []⟩, ⟨"wlan2", true, []⟩]
        ⟨"wlan1", false, []⟩).map (fun w => w.Iface)).contains "wlan2" = false := by
  constructor <;> decide

/-- Claim C1, witness: the amended theorem applied to a concrete
three-record collection in which the second record matches. -/
theorem C1_witness :
    insertWpaConfig [⟨"wlan2", "Uplink", "wifi", true⟩]
        ([⟨"wlan0", false, []⟩] ++ ⟨"wlan1", true, []⟩ :: [⟨"wlan2", false, []⟩])
        ⟨"wlan1", false, []⟩ =
      [⟨"wlan0", false, []⟩].map (refreshWpa [⟨"wlan2", "Uplink", "wifi", true⟩]) ++
        [⟨"wlan1", false, []⟩] :=
  C1_after_match_dropped [⟨"wlan2", "Uplink", "wifi", true⟩] ⟨"wlan1", false, []⟩
    [⟨"wlan0", false, []⟩] ⟨"wlan1", true, []⟩ [⟨"wlan2", false, []⟩]
    rfl (by decide)

/-- Claim C5: a PPP record that fails validation is rejected with a
client error before the interface registry is called and before any
mutation of the stored PPP collection or the daemon-facing artifacts. -/
theorem C5_validation_aborts_before_mutation
    (stored : List PPPIface) (reg : Except String (List InterfaceConfig))
    (er : Bool) (ppp : PPPIface) (msg : String)
    (h : ppp.Validate = .error msg) :
    updatePPPConfig stored reg er ppp = ⟨some 400, false, stored, false, [], []⟩ := by
  simp [updatePPPConfig, h]

/-- Claim C5, witness: the non-numeric VLAN "abc" fails validation and
the handler performs no registry call and no mutation. -/
theorem C5_witness :
    PPPIface.Validate ⟨"ppp0", true, "alice", "pw", "abc", ""⟩ =
      Except.error "VLAN field must contain numeric value" ∧
    updatePPPConfig [] (Except.ok []) true ⟨"ppp0", true, "alice", "pw", "abc", ""⟩ =
      ⟨some 400, false, [], false, [], []⟩ :=
  ⟨rfl,
    C5_validation_aborts_before_mutation [] (Except.ok []) true
      ⟨"ppp0", true, "alice", "pw", "abc", ""⟩
      "VLAN field must contain numeric value" rfl⟩

/-- Claim C10: the interface-name pattern of `updateWpaSupplicantConfig`
accepts the empty string, and merging a record with empty `Iface` into a
collection none of whose records has an empty `Iface` appends nothing:
its only effect is refreshing the cached `Enabled` flags of the existing
records from the interface list. -/
theorem C10_empty_iface_refresh_only :
    ifacePatternMatch "" = true ∧
    ∀ (il : List InterfaceConfig) (c : List WPAIface) (new : WPAIface),
      new.Iface = "" → (∀ w ∈ c, ¬ w.Iface = "") →
      insertWpaConfig il c new = c.map (refreshWpa il) := by
  refine ⟨by decide, ?_⟩
  intro il c new hnew h
  have hs := wpaScan_not_found il new c (by
    intro w hw
    rw [hnew]
    exact h w hw)
  simp [insertWpaConfig, hs, hnew]

/-- Claim C10, witness: a record with empty `Iface` merged into a
one-record collection only refreshes that record's `Enabled` flag. -/
theorem C10_witness :
    insertWpaConfig [⟨"wlan1", "Uplink", "wifi", true⟩]
        [⟨"wlan1", false, []⟩] ⟨"", true, []⟩ =
      [⟨"wlan1", false, []⟩].map (refreshWpa [⟨"wlan1", "Uplink", "wifi", true⟩]) :=
  C10_empty_iface_refresh_only.2 [⟨"wlan1", "Uplink", "wifi", true⟩]
    [⟨"wlan1", false, []⟩] ⟨"", true, []⟩ rfl (by decide)

/-- Every provider-template execution fails: the nodes before the stray
`if .BSSID` conditional all succeed, and the `BSSID` lookup fails because
`PPPIface` has no such field. -/
theorem renderProvider_fails (p : PPPIface) :
    renderProvider p = Except.error (fieldErr "BSSID") := by
  by_cases hm : p.MTU = "" <;> by_cases hv : p.VLAN = "" <;>
    simp [renderProvider, providerTemplate, execNodes, execNode, pppField,
      hm, hv, Bind.bind, Except.bind]

/-- Claim C2 (code bug): the per-record provider artifact is never
rendered. The provider template of `writePPP` references `.BSSID`, a
field `PPPIface` does not have, so template execution fails for every
record — even a fully validated one — and `writePPP` on a non-empty
collection writes only the shared chap-secrets artifact and returns the
field error. The spec's described provider content (directives, optional
mtu line, VLAN-conditional plugin suffix) is what the template's earlier
nodes would emit; execution never gets past the stray `BSSID`
reference. -/
theorem C2_provider_template_broken :
    (∀ p : PPPIface, renderProvider p = Except.error (fieldErr "BSSID")) ∧
    PPPIface.Validate ⟨"ppp0", true, "alice", "pw", "", "1492"⟩ = Except.ok () ∧
    writePPP [] ⟨[⟨"ppp0", true, "alice", "pw", "", "1492"⟩]⟩ =
      ([⟨chapSecretsPath, renderChapSecrets ⟨[⟨"ppp0", true, "alice", "pw", "", "1492"⟩]⟩⟩],
        some (fieldErr "BSSID")) :=
  ⟨renderProvider_fails, rfl,
    by simp [writePPP, writePPPLoop, renderProvider_fails]⟩

/-- Claim C3 (code bug): submitting a WPA record whose only network
entry has empty `KeyMgmt` is accepted (the loop validates the defaulted
copy), but the record stored by the merge still carries the empty
`KeyMgmt`: the Go loop variable is a copy, so the default
"WPA-PSK WPA-PSK-SHA256" computed by `defaultKeyMgmt` is never written
back into the stored record. -/
theorem C3_keyMgmt_default_lost :
    updateWpaSupplicantConfig [] (Except.ok []) true
        ⟨"wlan1", true, [⟨false, "pass", "Home", "", "", ""⟩]⟩ =
      ⟨none, true, [⟨"wlan1", true, [⟨false, "pass", "Home", "", "", ""⟩]⟩], true,
        [PluginCall.enable "WIFI-UPLINK"]⟩ ∧
    (defaultKeyMgmt ⟨false, "pass", "Home", "", "", ""⟩).KeyMgmt =
      "WPA-PSK WPA-PSK-SHA256" :=
  ⟨rfl, rfl⟩

/-- Claim C4 (amended): when the submitted network list has at least one
entry with `Disabled` false, `updateWpaSupplicantConfig` asks the plugin
lifecycle manager to enable WIFI-UPLINK — the record's own `Enabled`
flag is not consulted — and asks for a restart only when the enable call
reports the plugin was already running. -/
theorem C4_enable_decided_by_networks
    (stored : List WPAIface) (interfaces : List InterfaceConfig)
    (er : Bool) (wpa : WPAIface)
    (hpat : ifacePatternMatch wpa.Iface = true)
    (hval : validateNetworks wpa.Networks = .ok ())
    (hen : anyNetworkEnabled wpa.Networks = true) :
    (updateWpaSupplicantConfig stored (Except.ok interfaces) er wpa).pluginCalls =
      if er then [PluginCall.enable "WIFI-UPLINK"]
      else [PluginCall.enable "WIFI-UPLINK", PluginCall.restart "WIFI-UPLINK"] := by
  simp [updateWpaSupplicantConfig, hpat, hval, hen]

/-- Claim C4, counterexample to the claim as stated: resubmitting the
stored `wlan1` record with `Enabled` false and an unchanged network list
(one entry with `Disabled` false) makes the handler call enablePlugin —
here it reports a fresh start, so the call list is exactly the enable
call and contains no restart, contradicting "restart, not enable". -/
theorem C4_counterexample :
    (updateWpaSupplicantConfig
        [⟨"wlan1", true, [⟨false, "secret123", "Home", "WPA-PSK", "", ""⟩]⟩]
        (Except.ok [⟨"wlan1", "Uplink", "wifi", false⟩]) true
        ⟨"wlan1", false, [⟨false, "secret123", "Home", "WPA-PSK", "", ""⟩]⟩).pluginCalls =
      [PluginCall.enable "WIFI-UPLINK"] := by
  decide

/-- Claim C4, witness: the amended theorem applied to the scenario-B
input, for both answers the plugin manager can give. -/
theorem C4_witness :
    (updateWpaSupplicantConfig
        [⟨"wlan1", true, [⟨false, "secret123", "Home", "WPA-PSK", "", ""⟩]⟩]
        (Except.ok [⟨"wlan1", "Uplink", "wifi", false⟩]) false
        ⟨"wlan1", false, [⟨false, "secret123", "Home", "WPA-PSK", "", ""⟩]⟩).pluginCalls =
      [PluginCall.enable "WIFI-UPLINK", PluginCall.restart "WIFI-UPLINK"] := by
  have h := C4_enable_decided_by_networks
    [⟨"wlan1", true, [⟨false, "secret123", "Home", "WPA-PSK", "", ""⟩]⟩]
    [⟨"wlan1", "Uplink", "wifi", false⟩] false
    ⟨"wlan1", false, [⟨false, "secret123", "Home", "WPA-PSK", "", ""⟩]⟩
    (by decide) rfl rfl
  simpa using h

/-- Claim C9: `PPPIface.Validate` checks `Iface` only for emptiness, so a
record whose `Iface` contains a newline is accepted even though `Iface`
is concatenated verbatim into the provider artifact's path (and into the
provider template's plugin lines), while the same newline in `Username`
or `Secret` is rejected. -/
theorem C9_iface_newline_unchecked :
    PPPIface.Validate ⟨"eth0\nx", true, "alice", "pw", "", ""⟩ = Except.ok () ∧
    containsChar "eth0\nx" '\n' = true ∧
    providerPath ⟨"eth0\nx", true, "alice", "pw", "", ""⟩ = "/etc/ppp/provider_eth0\nx" ∧
    containsChar (providerPath ⟨"eth0\nx", true, "alice", "pw", "", ""⟩) '\n' = true ∧
    PPPIface.Validate ⟨"eth0", true, "al\nice", "pw", "", ""⟩ =
      Except.error "Username field contains newline characters" ∧
    PPPIface.Validate ⟨"eth0", true, "alice", "p\nw", "", ""⟩ =
      Except.error "Secret field contains newline characters" :=
  ⟨rfl, rfl, rfl, rfl, rfl, rfl⟩

/-- Claim C6: for a network entry whose other fields pass their checks
(no newline in Password or SSID, numeric Priority when present, valid
BSSID when present), `WPANetwork.Validate` accepts exactly when
`KeyMgmt` is non-empty and every token of its single-space split lies in
the set WPA-PSK, WPA-PSK-SHA256, SAE; in particular it rejects empty
`KeyMgmt` and any `KeyMgmt` with a token outside the set (a doubled
space makes an empty token, which is outside the set). -/
theorem C6_validate_keyMgmt_iff (n : WPANetwork)
    (hp : containsChar n.Password '\n' = false)
    (hs : containsChar n.SSID '\n' = false)
    (hpr : n.Priority = "" ∨ (atoi? n.Priority).isSome = true)
    (hb : n.BSSID = "" ∨ macMatch n.BSSID = true) :
    n.Validate = .ok () ↔
      (n.KeyMgmt ≠ "" ∧ ∀ part ∈ goSplit n.KeyMgmt ' ', keyMgmtTokenOk part = true) := by
  have h3 : ¬(n.Priority ≠ "" ∧ atoi? n.Priority = none) := by
    rcases hpr with h | h
    · simp [h]
    · rcases Option.isSome_iff_exists.mp h with ⟨v, hv⟩
      simp [hv]
  have h4 : ¬(n.BSSID ≠ "" ∧ macMatch n.BSSID = false) := by
    rcases hb with h | h <;> simp [h]
  by_cases hk : n.KeyMgmt = ""
  · simp [WPANetwork.Validate, hp, hs, h3, h4, hk]
  · simp only [WPANetwork.Validate, hp, hs, h3, h4, hk, Bool.false_eq_true,
      if_false, ne_eq, not_false_eq_true, true_and]
    cases hf : (goSplit n.KeyMgmt ' ').find? (fun part => !(keyMgmtTokenOk part)) with
    | none =>
      simp only [hf]
      constructor
      · intro _ part hm
        have := List.find?_eq_none.mp hf part hm
        simpa using this
      · intro _
        trivial
    | some part =>
      simp only [hf]
      constructor
      · intro h
        exact absurd h (by simp)
      · intro hall
        have hmem : part ∈ goSplit n.KeyMgmt ' ' := List.mem_of_find?_eq_some hf
        have hbad := List.find?_some hf
        rw [hall part hmem] at hbad
        simp at hbad

/-- Claim C6, witness: both directions exercised on concrete entries —
a two-token KeyMgmt is accepted via the theorem. -/
theorem C6_witness :
    WPANetwork.Validate ⟨false, "pw", "Home", "WPA-PSK SAE", "", ""⟩ = Except.ok () :=
  (C6_validate_keyMgmt_iff ⟨false, "pw", "Home", "WPA-PSK SAE", "", ""⟩
    rfl rfl (Or.inl rfl) (Or.inl rfl)).mpr (by decide)

theorem writePPP_files (il : List InterfaceConfig) (cfg : PPPConfig) :
    (writePPP il cfg).1 = [⟨chapSecretsPath, renderChapSecrets cfg⟩] := by
  obtain ⟨ppps⟩ := cfg
  cases ppps with
  | nil => rfl
  | cons p rest => simp [writePPP, writePPPLoop, renderProvider_fails]

theorem chapLine_infix_body (ps : List PPPIface) (p : PPPIface) (hp : p ∈ ps) :
    (chapSecretsLine p).data <:+: (chapBody ps).data := by
  induction ps with
  | nil => cases hp
  | cons q qs ih =>
    rcases List.mem_cons.mp hp with rfl | hp
    · refine ⟨"\n      ".data, ("\n    " ++ chapBody qs).data, ?_⟩
      simp [chapBody, List.append_assoc]
    · obtain ⟨s, t, h⟩ := ih hp
      refine ⟨("\n      " ++ (chapSecretsLine q ++ "\n    ")).data ++ s, t, ?_⟩
      simp only [chapBody, String.data_append, List.append_assoc, h]

/-- Claim C7: the shared chap-secrets artifact written by `writePPP`
carries the credential line of every stored record, with no filtering on
`Enabled` — on any collection, the artifact list always contains the
chap-secrets file rendered over all records, and each stored record's
`"Username" * "Secret"` line occurs in it, enabled or not — whereas the
WPA renderer keeps only records with `Enabled` true (its output equals
its output on the Enabled-filtered collection). -/
theorem C7_chap_unfiltered (il : List InterfaceConfig) (cfg : PPPConfig)
    (p : PPPIface) (hp : p ∈ cfg.PPPs) :
    (writePPP il cfg).1 = [⟨chapSecretsPath, renderChapSecrets cfg⟩] ∧
    (chapSecretsLine p).data <:+: (renderChapSecrets cfg).data ∧
    (∀ wpas : List WPAIface,
      writeWPAs il ⟨wpas⟩ = writeWPAs il ⟨wpas.filter (fun w => w.Enabled)⟩) := by
  refine ⟨writePPP_files il cfg, ?_, ?_⟩
  · obtain ⟨s, t, h⟩ := chapLine_infix_body cfg.PPPs p hp
    refine ⟨"# Note this is an autogenerated file\n    # Secrets for authentication using CHAP\n    # client        server  secret                  IP addresses\n\n    ".data ++ s,
      t ++ "\n    ".data, ?_⟩
    simp only [renderChapSecrets, String.data_append, List.append_assoc, ← h]
  · intro wpas
    simp [writeWPAs, List.filter_filter]

/-- Claim C7, witness: scenario C — a single stored PPP record with
`Enabled` false still has its alice/pw line in the chap-secrets
artifact. -/
theorem C7_witness :
    (writePPP [] ⟨[⟨"ppp0", false, "alice", "pw", "", ""⟩]⟩).1 =
      [⟨chapSecretsPath, renderChapSecrets ⟨[⟨"ppp0", false, "alice", "pw", "", ""⟩]⟩⟩] ∧
    (chapSecretsLine ⟨"ppp0", false, "alice", "pw", "", ""⟩).data <:+:
      (renderChapSecrets ⟨[⟨"ppp0", false, "alice", "pw", "", ""⟩]⟩).data :=
  ⟨(C7_chap_unfiltered [] ⟨[⟨"ppp0", false, "alice", "pw", "", ""⟩]⟩
      ⟨"ppp0", false, "alice", "pw", "", ""⟩ (List.mem_singleton.mpr rfl)).1,
    (C7_chap_unfiltered [] ⟨[⟨"ppp0", false, "alice", "pw", "", ""⟩]⟩
      ⟨"ppp0", false, "alice", "pw", "", ""⟩ (List.mem_singleton.mpr rfl)).2.1⟩

end Uplink
